import Mathlib

/-!
# Verification of the Vector GraphQL MCP server (`vector_server.py`)

Shallow embedding of the four tool handlers (`fetch_leaderboard`,
`fetch_profile`, `fetch_token_data`, `fetch_token_broadcasts`).  Each Python
handler builds a fixed `variables` dict, wraps it with a fixed catalog query
string into a payload, performs one `httpx` POST with fixed headers and
`verify=False`, and returns `response.text` on 2xx or a formatted
`"Error <action>: <message>"` string when the transport raises or
`raise_for_status` fires.  The optional `ctx` observer gets an info
notification before the call and an error notification on failure, each
guarded by `if ctx:`.

The transport environment (what `client.post` / `raise_for_status` do on a
given call) is modelled by `TransportBehavior`: either the post raises an
exception with message `m`, or it returns a response with a status code and
body text (`statusMsg` is the message of the `HTTPStatusError` that
`raise_for_status` raises when the status is not 2xx).  A tool invocation is
a pure function of its arguments and the transport behavior, producing a
`ToolRun`: the list of outbound requests it performed, the notifications it
emitted to `ctx`, and the returned string.
-/

/-- A JSON value as it appears in the tools' `variables` dicts (only `null`,
numbers and strings occur in the source). -/
inductive JVal where
  | null
  | num (n : Int)
  | str (s : String)
deriving DecidableEq, Repr

/-- A `variables` object: the key/value pairs in source insertion order. -/
abbrev Variables := List (String × JVal)

/-- The JSON body `\x7b"query": ..., "variables": ...\x7d` built by every tool
(`payload` in the source); the field `vars` embeds the Python key
`"variables"` (a reserved word in Lean). -/
structure Payload where
  query : String
  vars : Variables
deriving DecidableEq, Repr

/-- One outbound HTTP request as issued by `client.post(API_URL, json=payload,
headers=HEADERS)` on an `httpx.AsyncClient(verify=False)`. -/
structure HttpRequest where
  method : String
  url : String
  headers : List (String × String)
  body : Payload
  verifyTLS : Bool
deriving DecidableEq, Repr

/-- A notification delivered to the optional `ctx` observer
(`ctx.info(...)` / `ctx.error(...)`). -/
inductive Notification where
  | info (msg : String)
  | error (msg : String)
deriving DecidableEq, Repr

/-- Behavior of the transport for one call: `client.post` raises an exception
whose `str(e)` is `msg`, or it returns a response with the given status code
and body text.  `statusMsg` is `str(e)` of the `HTTPStatusError` that
`response.raise_for_status()` raises when the status is not a success. -/
inductive TransportBehavior where
  | raises (msg : String)
  | responds (status : Nat) (body : String) (statusMsg : String)
deriving DecidableEq, Repr

/-- `httpx.Response.is_success`: status in the 2xx range; `raise_for_status`
raises exactly when this is false. -/
def is2xx (status : Nat) : Bool := 200 ≤ status && status ≤ 299

/-- Observable outcome of one tool invocation. -/
structure ToolRun where
  requests : List HttpRequest
  notifications : List Notification
  result : String
deriving DecidableEq, Repr

/-- `API_URL` from the source. -/
def API_URL : String := "https://mainnet-api.vector.fun/graphql"

/-- `HEADERS` from the source, in source order. -/
def HEADERS : List (String × String) :=
  [ ("Host", "mainnet-api.vector.fun"),
    ("content-type", "application/json"),
    ("X-App-Version", "1.11.0"),
    ("X-App-Build-Number", "331"),
    ("accept", "*/*"),
    ("x-app-name", "Vector"),
    ("Accept-Language", "en-US;q=1"),
    ("user-agent", "Vector/331 CFNetwork/1568.200.51 Darwin/24.1.0"),
    ("pragma", "no-cache"),
    ("cache-control", "no-cache") ]

/-!
The four GraphQL catalog documents, transcribed byte-for-byte from the
Python triple-quoted string constants (including the leading and trailing
newline of the triple-quoted literals; braces written with hex escapes).
-/

def LEADERBOARD_QUERY : String :=
  "
query leaderboardScreenQuery(
  $groupId: String
  $leaderboardType: LeaderboardType!
  $periodsAgo: Int
  $first: Int
  $after: String
) \x7b
  ...leaderboardFragment_31k55b
\x7d

fragment InlineProfileFragment on Profile \x7b
  id
  ...ProfilePicFragment
  ...ProfileUsernameFragment
\x7d

fragment LeaderboardEntryFragment on LeaderboardEntry \x7b
  profileId
  broadcastCount
  rank
  value
  percentileV2
  profile \x7b
    id
    username
    profileImageUrl
    twitterUsername
    isVerified
    followerCount
    followerCountX
    ...InlineProfileFragment
    ...ProfilePicFragment
  \x7d
\x7d

fragment ProfileBadgesFragment on Profile \x7b
  username
  twitterUsername
  isVerified
\x7d

fragment ProfilePicFragment on Profile \x7b
  id
  username
  moderationState
  profileImageUrl
  ...ProfileBadgesFragment
\x7d

fragment ProfileUsernameFragment on Profile \x7b
  username
  moderationState
  ...ProfileBadgesFragment
\x7d

fragment leaderboardFragment_31k55b on Query \x7b
  leaderboardWeekly(leaderboardType: $leaderboardType, groupId: $groupId, periodsAgo: $periodsAgo, first: $first, after: $after) \x7b
    edges \x7b
      node \x7b
        profileId
        ...LeaderboardEntryFragment
        __typename
      \x7d
      cursor
    \x7d
    resetsAt
    pageInfo \x7b
      endCursor
      hasNextPage
    \x7d
  \x7d
\x7d
"

def PROFILE_QUERY : String :=
  "
query UsernameProfileQuery(
  $username: String!
  $cursor: String
  $count: Int
) \x7b
  profile(username: $username, refcode: $username) \x7b
    id
    username
    moderationState
    twitterUsername
    followerCountX
    followerCount
    weeklyLeaderboardStanding(leaderboardType: PNL_WIN) \x7b
      rank
      value
    \x7d
    profileLeaderboardValues \x7b
      daily \x7b
        pnl
        volume
        maxTradeSize
      \x7d
      weekly \x7b
        pnl
        volume
        maxTradeSize
      \x7d
    \x7d
  \x7d
  userHoldings(id: $username, after: $cursor, first: $count) \x7b
    edges \x7b
      cursor
      node \x7b
        portfolioPercentage
        token \x7b
          id
          address
          chain
          name
          symbol
          image
        \x7d
      \x7d
    \x7d
    pageInfo \x7b
      hasNextPage
      endCursor
    \x7d
  \x7d
  userBroadcastsV2(id: $username, after: $cursor, first: $count) \x7b
    edges \x7b
      cursor
      node \x7b
        broadcast \x7b
          id
          message
          createdAt
          buyTokenId
          buyTokenAmount
          buyPositionSize
          buyTokenPrice: buyTokenPriceV2
          sellTokenId
          sellTokenAmount
          sellPositionSize
          sellTokenPrice: sellTokenPriceV2
          broadcastCandleChart \x7b
            cycleStats \x7b
              pnl
              totalBought
              totalHeld
              totalSold
            \x7d
          \x7d
        \x7d
        buyToken \x7b
          id
          chain
          name
          symbol
          price
          image
          address
        \x7d
        sellToken \x7b
          id
          chain
          name
          symbol
          price
          image
          address
        \x7d
      \x7d
    \x7d
    pageInfo \x7b
      endCursor
      hasNextPage
    \x7d
  \x7d
\x7d
"

def TOKENS_LIST_QUERY : String :=
  "
query TokensListRefetchQuery(
    $count: Int = 25
    $cursor: String
    $filterBy: String
    $query: String
    $sortBy: String
) \x7b
    searchTokens(query: $query, sortBy: $sortBy, filterBy: $filterBy, after: $cursor, first: $count) \x7b
        edges \x7b
            node \x7b
                id
                address
                chain
                symbol
                price
                supply
                volume5min
                volume1h
                volume6h
                volume24h
                broadcastCount5min
                broadcastCount1h
                broadcastCount6h
                broadcastCount24h
                top10HolderPercentV2
                firstIndexedTimestamp
                insiderHoldingPercent
                devHoldingPercent
            \x7d
        \x7d
    \x7d
\x7d
"

def TOKEN_BROADCASTS_QUERY : String :=
  "
query TokenBroadcastsQuery(
    $id: ID!
    $after: String
    $first: Int = 100
    $sortBy: TokenBroadcastSortBy
    $sortDirection: TokenBroadcastSortDirection
) \x7b
    tokenBroadcasts(
        id: $id
        after: $after
        first: $first
        sortBy: $sortBy
        sortDirection: $sortDirection
    ) \x7b
        edges \x7b
            node \x7b
                broadcast \x7b
                    message
                \x7d
            \x7d
        \x7d
    \x7d
\x7d
"

/-- Outcome of the `try` block's transport part: `client.post` +
`response.raise_for_status()`.  `.ok body` means the post returned a 2xx
response with that body text; `.error m` means an exception with message `m`
was raised (by the post itself, or by `raise_for_status` on a non-2xx). -/
def outcome : TransportBehavior → Except String String
  | .raises m => .error m
  | .responds status body statusMsg =>
      if is2xx status then .ok body else .error statusMsg

/-- The single request each tool performs:
`client.post(API_URL, json=payload, headers=HEADERS)` on
`httpx.AsyncClient(verify=False)`. -/
def buildRequest (query : String) (vars : Variables) : HttpRequest :=
  { method := "POST"
    url := API_URL
    headers := HEADERS
    body := { query := query, vars := vars }
    verifyTLS := false }

/-- The shared tool body: `if ctx: ctx.info(infoMsg)`; build the payload;
POST; on success return `response.text`; on exception build
`"Error <action>: <str(e)>"`, `if ctx: ctx.error(...)`, and return it. -/
def runTool (action infoMsg : String) (query : String) (vars : Variables)
    (ctx : Option Unit) (t : TransportBehavior) : ToolRun :=
  { requests := [buildRequest query vars]
    notifications :=
      (match ctx with
        | some _ => [Notification.info infoMsg]
        | none => []) ++
      (match outcome t with
        | .ok _ => []
        | .error m =>
            match ctx with
            | some _ => [Notification.error ("Error " ++ action ++ ": " ++ m)]
            | none => [])
    result :=
      match outcome t with
      | .ok body => body
      | .error m => "Error " ++ action ++ ": " ++ m }

/-- Python default of `fetch_leaderboard`'s `leaderboard_type` parameter. -/
def defaultLeaderboardType : String := "PNL_WIN"

/-- `fetch_leaderboard(leaderboard_type="PNL_WIN", ctx=None)`.  The Python
default for `leaderboard_type` is `defaultLeaderboardType`. -/
def fetch_leaderboard (t : TransportBehavior) (leaderboard_type : String)
    (ctx : Option Unit) : ToolRun :=
  runTool "fetching leaderboard data"
    ("Fetching " ++ leaderboard_type ++ " leaderboard data...")
    LEADERBOARD_QUERY
    [ ("after", JVal.null),
      ("first", JVal.num 100),
      ("groupId", JVal.null),
      ("leaderboardType", JVal.str leaderboard_type),
      ("periodsAgo", JVal.null) ]
    ctx t

/-- `fetch_profile(username, ctx=None)`. -/
def fetch_profile (t : TransportBehavior) (username : String)
    (ctx : Option Unit) : ToolRun :=
  runTool "fetching profile data"
    ("Fetching profile data for " ++ username ++ "...")
    PROFILE_QUERY
    [ ("username", JVal.str username),
      ("cursor", JVal.null),
      ("count", JVal.num 10) ]
    ctx t

/-- `fetch_token_data(ctx=None)`. -/
def fetch_token_data (t : TransportBehavior) (ctx : Option Unit) : ToolRun :=
  runTool "fetching token data"
    "Fetching trending Solana tokens..."
    TOKENS_LIST_QUERY
    [ ("count", JVal.num 50),
      ("cursor", JVal.null),
      ("filterBy", JVal.str "(broadcastCount5minV2:>0) && (chain:SOLANA)"),
      ("query", JVal.null),
      ("sortBy", JVal.str "trendingScore5min:desc") ]
    ctx t

/-- `fetch_token_broadcasts(token_id, ctx=None)`. -/
def fetch_token_broadcasts (t : TransportBehavior) (token_id : String)
    (ctx : Option Unit) : ToolRun :=
  runTool "fetching token broadcasts"
    ("Fetching broadcasts for token " ++ token_id ++ "...")
    TOKEN_BROADCASTS_QUERY
    [ ("id", JVal.str token_id),
      ("after", JVal.null),
      ("first", JVal.num 100),
      ("sortBy", JVal.str "Time"),
      ("sortDirection", JVal.str "Desc") ]
    ctx t

/-!
## Claim theorems
-/

/-- C1: for every tool and every input, when the transport raises an exception
or the HTTP response has a non-2xx status, the tool returns (does not raise)
the string `"Error <action>: <message>"` — a string beginning with the literal
prefix `"Error "` followed by the tool's action description and containing the
triggering exception's message; in particular `fetch_profile` with an
unreachable endpoint returns exactly `"Error fetching profile data: "`
followed by the connection error message. -/
theorem error_paths_return_action_prefixed_text
    (m lt u tok body sm : String) (c : Option Unit) (status : Nat)
    (hFail : is2xx status = false) :
    (fetch_leaderboard (.raises m) lt c).result = "Error fetching leaderboard data: " ++ m
    ∧ (fetch_leaderboard (.responds status body sm) lt c).result
        = "Error fetching leaderboard data: " ++ sm
    ∧ (fetch_profile (.raises m) u c).result = "Error fetching profile data: " ++ m
    ∧ (fetch_profile (.responds status body sm) u c).result
        = "Error fetching profile data: " ++ sm
    ∧ (fetch_token_data (.raises m) c).result = "Error fetching token data: " ++ m
    ∧ (fetch_token_data (.responds status body sm) c).result
        = "Error fetching token data: " ++ sm
    ∧ (fetch_token_broadcasts (.raises m) tok c).result
        = "Error fetching token broadcasts: " ++ m
    ∧ (fetch_token_broadcasts (.responds status body sm) tok c).result
        = "Error fetching token broadcasts: " ++ sm := by
  refine ⟨rfl, ?_, rfl, ?_, rfl, ?_, rfl, ?_⟩ <;>
    simp [fetch_leaderboard, fetch_profile, fetch_token_data, fetch_token_broadcasts,
      runTool, outcome, hFail]

/-- Witness for C1: a 404 status is non-2xx, and `fetch_profile` on a raised
connection error returns exactly the prefixed error text. -/
theorem error_paths_return_action_prefixed_text_witness :
    is2xx 404 = false
    ∧ (fetch_profile (.raises "Connection refused") "trader1" none).result
        = "Error fetching profile data: " ++ "Connection refused" :=
  ⟨by decide,
    (error_paths_return_action_prefixed_text "Connection refused" "PNL_WIN" "trader1"
      "tok" "" "404 Client Error" none 404 (by decide)).2.2.1⟩

/-- C2: for every tool and every input, when the HTTP POST succeeds (2xx
status), the tool's return value equals the raw response body text verbatim,
with no transformation, parsing, or re-encoding. -/
theorem success_returns_body_verbatim
    (status : Nat) (h2xx : is2xx status = true)
    (lt u tok body sm : String) (c : Option Unit) :
    (fetch_leaderboard (.responds status body sm) lt c).result = body
    ∧ (fetch_profile (.responds status body sm) u c).result = body
    ∧ (fetch_token_data (.responds status body sm) c).result = body
    ∧ (fetch_token_broadcasts (.responds status body sm) tok c).result = body := by
  refine ⟨?_, ?_, ?_, ?_⟩ <;>
    simp [fetch_leaderboard, fetch_profile, fetch_token_data, fetch_token_broadcasts,
      runTool, outcome, h2xx]

/-- Witness for C2, on the spec's scenario: `fetch_token_broadcasts` with
`token_id = "abc123"` succeeding (status 200) with body
`\x7b"data":\x7b"tokenBroadcasts":\x7b"edges":[]\x7d\x7d\x7d` returns exactly
that string. -/
theorem success_returns_body_verbatim_witness :
    is2xx 200 = true
    ∧ (fetch_token_broadcasts
        (.responds 200 "\x7b\"data\":\x7b\"tokenBroadcasts\":\x7b\"edges\":[]\x7d\x7d\x7d" "")
        "abc123" none).result
      = "\x7b\"data\":\x7b\"tokenBroadcasts\":\x7b\"edges\":[]\x7d\x7d\x7d" :=
  ⟨by decide,
    (success_returns_body_verbatim 200 (by decide) "PNL_WIN" "trader1" "abc123"
      "\x7b\"data\":\x7b\"tokenBroadcasts\":\x7b\"edges\":[]\x7d\x7d\x7d" "" none).2.2.2⟩

/-- C3: for every string argument `t`, the request body built by
`fetch_leaderboard(leaderboard_type=t)` has a variables object exactly equal
to `after: null, first: 100, groupId: null, leaderboardType: t,
periodsAgo: null`, and with no argument supplied (the Python default
`defaultLeaderboardType`), `leaderboardType` is `"PNL_WIN"`. -/
theorem leaderboard_variables_merge_exact
    (tr : TransportBehavior) (t : String) (c : Option Unit) :
    (fetch_leaderboard tr t c).requests.map (fun r => r.body.vars)
      = [[("after", JVal.null), ("first", JVal.num 100), ("groupId", JVal.null),
          ("leaderboardType", JVal.str t), ("periodsAgo", JVal.null)]]
    ∧ defaultLeaderboardType = "PNL_WIN"
    ∧ (fetch_leaderboard tr defaultLeaderboardType c).requests.map (fun r => r.body.vars)
      = [[("after", JVal.null), ("first", JVal.num 100), ("groupId", JVal.null),
          ("leaderboardType", JVal.str "PNL_WIN"), ("periodsAgo", JVal.null)]] :=
  ⟨rfl, rfl, rfl⟩

/-- C4: the variables objects of the other three tools exactly equal the
documented merges: `fetch_profile(username=u)` sends
`username: u, cursor: null, count: 10`; `fetch_token_data()` sends
`count: 50, cursor: null, filterBy: <fixed Solana/broadcast filter>,
query: null, sortBy: "trendingScore5min:desc"`; and
`fetch_token_broadcasts(token_id=i)` sends
`id: i, after: null, first: 100, sortBy: "Time", sortDirection: "Desc"`. -/
theorem other_tools_variables_merge_exact
    (tr : TransportBehavior) (u i : String) (c : Option Unit) :
    (fetch_profile tr u c).requests.map (fun r => r.body.vars)
      = [[("username", JVal.str u), ("cursor", JVal.null), ("count", JVal.num 10)]]
    ∧ (fetch_token_data tr c).requests.map (fun r => r.body.vars)
      = [[("count", JVal.num 50), ("cursor", JVal.null),
          ("filterBy", JVal.str "(broadcastCount5minV2:>0) && (chain:SOLANA)"),
          ("query", JVal.null), ("sortBy", JVal.str "trendingScore5min:desc")]]
    ∧ (fetch_token_broadcasts tr i c).requests.map (fun r => r.body.vars)
      = [[("id", JVal.str i), ("after", JVal.null), ("first", JVal.num 100),
          ("sortBy", JVal.str "Time"), ("sortDirection", JVal.str "Desc")]] :=
  ⟨rfl, rfl, rfl⟩

/-- C5: for every tool and every input, the `query` field of the request body
equals, byte-for-byte, the fixed catalog document for that tool
(`LEADERBOARD_QUERY`, `PROFILE_QUERY`, `TOKENS_LIST_QUERY`, or
`TOKEN_BROADCASTS_QUERY` respectively), unmodified. -/
theorem query_field_equals_catalog_document
    (tr : TransportBehavior) (lt u tok : String) (c : Option Unit) :
    (fetch_leaderboard tr lt c).requests.map (fun r => r.body.query) = [LEADERBOARD_QUERY]
    ∧ (fetch_profile tr u c).requests.map (fun r => r.body.query) = [PROFILE_QUERY]
    ∧ (fetch_token_data tr c).requests.map (fun r => r.body.query) = [TOKENS_LIST_QUERY]
    ∧ (fetch_token_broadcasts tr tok c).requests.map (fun r => r.body.query)
        = [TOKEN_BROADCASTS_QUERY] :=
  ⟨rfl, rfl, rfl, rfl⟩

/-- C6: invoking any tool twice with the same arguments produces two
independent outbound requests with byte-identical bodies: the constructed
request list is a pure function of the tool's arguments, unaffected by the
transport behavior or the observer of either invocation (no state is read or
carried between invocations). -/
theorem repeated_calls_build_identical_requests
    (tr₁ tr₂ : TransportBehavior) (c₁ c₂ : Option Unit) (lt u tok : String) :
    (fetch_leaderboard tr₁ lt c₁).requests = (fetch_leaderboard tr₂ lt c₂).requests
    ∧ (fetch_profile tr₁ u c₁).requests = (fetch_profile tr₂ u c₂).requests
    ∧ (fetch_token_data tr₁ c₁).requests = (fetch_token_data tr₂ c₂).requests
    ∧ (fetch_token_broadcasts tr₁ tok c₁).requests
        = (fetch_token_broadcasts tr₂ tok c₂).requests :=
  ⟨rfl, rfl, rfl, rfl⟩

/-- C7: every outbound request, from every tool and for every input, is an
HTTPS POST to the single fixed URL `https://mainnet-api.vector.fun/graphql`
with the single fixed header set `HEADERS` (including content-type
`application/json` and cache-control `no-cache`), a body of shape
`\x7b"query": <string>, "variables": <object>\x7d` (the `Payload` record),
and TLS certificate verification disabled. -/
theorem requests_use_fixed_url_headers_and_disable_tls
    (tr : TransportBehavior) (lt u tok : String) (c : Option Unit) :
    API_URL = "https://" ++ "mainnet-api.vector.fun/graphql"
    ∧ HEADERS.contains ("content-type", "application/json") = true
    ∧ HEADERS.contains ("cache-control", "no-cache") = true
    ∧ (fetch_leaderboard tr lt c).requests.map
        (fun r => (r.method, r.url, r.headers, r.verifyTLS))
      = [("POST", API_URL, HEADERS, false)]
    ∧ (fetch_profile tr u c).requests.map
        (fun r => (r.method, r.url, r.headers, r.verifyTLS))
      = [("POST", API_URL, HEADERS, false)]
    ∧ (fetch_token_data tr c).requests.map
        (fun r => (r.method, r.url, r.headers, r.verifyTLS))
      = [("POST", API_URL, HEADERS, false)]
    ∧ (fetch_token_broadcasts tr tok c).requests.map
        (fun r => (r.method, r.url, r.headers, r.verifyTLS))
      = [("POST", API_URL, HEADERS, false)]
    ∧ (fetch_leaderboard tr lt c).requests.map (fun r => r.body)
      = [Payload.mk LEADERBOARD_QUERY
          [("after", JVal.null), ("first", JVal.num 100), ("groupId", JVal.null),
           ("leaderboardType", JVal.str lt), ("periodsAgo", JVal.null)]]
    ∧ (fetch_profile tr u c).requests.map (fun r => r.body)
      = [Payload.mk PROFILE_QUERY
          [("username", JVal.str u), ("cursor", JVal.null), ("count", JVal.num 10)]]
    ∧ (fetch_token_data tr c).requests.map (fun r => r.body)
      = [Payload.mk TOKENS_LIST_QUERY
          [("count", JVal.num 50), ("cursor", JVal.null),
           ("filterBy", JVal.str "(broadcastCount5minV2:>0) && (chain:SOLANA)"),
           ("query", JVal.null), ("sortBy", JVal.str "trendingScore5min:desc")]]
    ∧ (fetch_token_broadcasts tr tok c).requests.map (fun r => r.body)
      = [Payload.mk TOKEN_BROADCASTS_QUERY
          [("id", JVal.str tok), ("after", JVal.null), ("first", JVal.num 100),
           ("sortBy", JVal.str "Time"), ("sortDirection", JVal.str "Desc")]] :=
  ⟨rfl, by decide, by decide, rfl, rfl, rfl, rfl, rfl, rfl, rfl, rfl⟩

/-- C8: for every tool, when the optional observer `ctx` is absent (`none`),
the call still completes normally with the same success or error result, and
no notification operation is attempted (every notification site is guarded,
so the absent observer sees a no-op). -/
theorem missing_ctx_is_tolerated (tr : TransportBehavior) (lt u tok : String) :
    (fetch_leaderboard tr lt none).notifications = []
    ∧ (fetch_leaderboard tr lt none).result = (fetch_leaderboard tr lt (some ())).result
    ∧ (fetch_profile tr u none).notifications = []
    ∧ (fetch_profile tr u none).result = (fetch_profile tr u (some ())).result
    ∧ (fetch_token_data tr none).notifications = []
    ∧ (fetch_token_data tr none).result = (fetch_token_data tr (some ())).result
    ∧ (fetch_token_broadcasts tr tok none).notifications = []
    ∧ (fetch_token_broadcasts tr tok none).result
        = (fetch_token_broadcasts tr tok (some ())).result := by
  refine ⟨?_, rfl, ?_, rfl, ?_, rfl, ?_, rfl⟩ <;>
    cases h : outcome tr <;>
      simp [fetch_leaderboard, fetch_profile, fetch_token_data, fetch_token_broadcasts,
        runTool, h]

/-- C9: every tool invocation performs exactly one outbound HTTP request
(and, by the type of `ToolRun.result`, yields exactly one response string);
there are no retries or additional requests, and by
`repeated_calls_build_identical_requests`-style purity no state persists
across calls. -/
theorem every_call_makes_exactly_one_request
    (tr : TransportBehavior) (lt u tok : String) (c : Option Unit) :
    (fetch_leaderboard tr lt c).requests.length = 1
    ∧ (fetch_profile tr u c).requests.length = 1
    ∧ (fetch_token_data tr c).requests.length = 1
    ∧ (fetch_token_broadcasts tr tok c).requests.length = 1 :=
  ⟨rfl, rfl, rfl, rfl⟩

/-- C10: for every tool, every input, and every fixed transport behavior, the
returned string is identical whether `ctx` is absent or present — the
observer notifications never influence the tool's return value (two-run
noninterference in the `ctx` argument). -/
theorem ctx_noninterference_in_result
    (tr : TransportBehavior) (lt u tok : String) (c₁ c₂ : Option Unit) :
    (fetch_leaderboard tr lt c₁).result = (fetch_leaderboard tr lt c₂).result
    ∧ (fetch_profile tr u c₁).result = (fetch_profile tr u c₂).result
    ∧ (fetch_token_data tr c₁).result = (fetch_token_data tr c₂).result
    ∧ (fetch_token_broadcasts tr tok c₁).result
        = (fetch_token_broadcasts tr tok c₂).result :=
  ⟨rfl, rfl, rfl, rfl⟩
